import Mathlib

/-!
Shallow embedding of the MapMyFlight waypoint / animation / capture
subsystem (src/src/App.tsx, src/src/components/AnimatedPlane.tsx,
src/src/components/ControlPanel.tsx, src/src/components/SummaryOverlay.tsx
and the unnamed summary-overlay variant), together with proofs of the
behavioural claims about it.

Numbers that the TypeScript source handles as IEEE doubles are embedded as
elements of a linear ordered field (instantiated at ℚ for executable
witnesses and at ℝ where the haversine distance of the map library is
needed).  The per-frame animation loop is embedded as an explicit step
function on an engine-state record, driven by an arbitrary list of frame
timestamps.
-/

namespace MapMyFlight

/-- A geographic coordinate pair, the embedding of Leaflet's `LatLng`
as it is used by the source (only `lat` and `lng` are read). -/
@[ext]
structure LatLng (α : Type) where
  lat : α
  lng : α
deriving Repr, DecidableEq

instance {α : Type} [Zero α] : Inhabited (LatLng α) := ⟨⟨0, 0⟩⟩

/-- The `Location` interface of src/src/App.tsx: identity, display name,
coordinates and a two-letter country code. -/
structure Location (α : Type) where
  id : String
  name : String
  lat : α
  lng : α
  countryCode : String
deriving Repr, DecidableEq

instance {α : Type} [Zero α] : Inhabited (Location α) := ⟨⟨"", "", 0, 0, ""⟩⟩

/-- The `L.latLng(loc.lat, loc.lng)` conversion applied throughout the
source before any geometric computation. -/
def latLngOf {α : Type} (l : Location α) : LatLng α := ⟨l.lat, l.lng⟩

/-- `interpolateLatLng` from src/src/components/AnimatedPlane.tsx:
componentwise linear interpolation between two coordinates. -/
def interpolateLatLng {α : Type} [CommRing α] (start stop : LatLng α) (t : α) :
    LatLng α :=
  ⟨start.lat + (stop.lat - start.lat) * t, start.lng + (stop.lng - start.lng) * t⟩

section TotalDistance

variable {α : Type} [LinearOrderedField α]

/-- The structural "sum of the distances between each consecutive pair of
points, in list order" (the quantity the spec describes as the total path
length). -/
def sumConsecutive (d : LatLng α → LatLng α → α) : List (LatLng α) → α
  | [] => 0
  | [_] => 0
  | a :: b :: rest => d a b + sumConsecutive d (b :: rest)

/-- Indexed partial sum of consecutive-pair distances: the sum of
`d locs[i+j] locs[i+j+1]` for `j < k` (out-of-range indices read the
default location, as `locs.getD` does). -/
def pairSumFrom (d : LatLng α → LatLng α → α) (locs : List (Location α)) :
    ℕ → ℕ → α
  | _, 0 => 0
  | i, k + 1 =>
    d (latLngOf (locs.getD i default)) (latLngOf (locs.getD (i + 1) default)) +
      pairSumFrom d locs (i + 1) k

/-- The total-distance `useMemo` of src/src/App.tsx: a running `distance`
accumulator over the index loop `for i in [0, locations.length-1)`,
executed only when at least two locations exist, finally divided by 1000
(metres to kilometres) and stored.  `d` stands for Leaflet's
`LatLng.distanceTo` (great-circle distance in metres). -/
def totalDistanceCalc (d : LatLng α → LatLng α → α) (locs : List (Location α)) :
    α :=
  (if 2 ≤ locs.length then
    (List.range (locs.length - 1)).foldl
      (fun acc i =>
        acc + d (latLngOf (locs.getD i default)) (latLngOf (locs.getD (i + 1) default)))
      0
  else 0) / 1000

end TotalDistance

section FormatDistance

/-- Model of ECMAScript `Number.prototype.toFixed(f)` on exact values:
the integer `n` minimizing `|n / 10^f - x|`, ties taken toward the larger
`n` (round half up). -/
def jsToFixed (f : ℕ) (x : ℚ) : ℤ := ⌊x * 10 ^ f + 1 / 2⌋

/-- Rendering of `x.toFixed(0)` as a string. -/
def jsToFixed0String (x : ℚ) : String := toString (jsToFixed 0 x)

/-- Rendering of `x.toFixed(1)` as a string (integer part, dot, one
digit). -/
def jsToFixed1String (x : ℚ) : String :=
  let n := jsToFixed 1 x
  let sign := if n < 0 then "-" else ""
  let m := n.natAbs
  sign ++ toString (m / 10) ++ "." ++ toString (m % 10)

/-- `formatDistance` as defined in src/src/components/ControlPanel.tsx
(lines 22-30). -/
def formatDistanceControlPanel (distanceKm : ℚ) : String :=
  if distanceKm < 1 then jsToFixed0String (distanceKm * 1000) ++ " m"
  else if distanceKm < 1000 then jsToFixed1String distanceKm ++ " km"
  else jsToFixed1String (distanceKm / 1000) ++ "k km"

/-- `formatDistance` as defined in src/src/components/AnimatedPlane.tsx
(lines 78-82). -/
def formatDistanceAnimatedPlane (distanceKm : ℚ) : String :=
  if distanceKm < 1 then jsToFixed0String (distanceKm * 1000) ++ " m"
  else if distanceKm < 1000 then jsToFixed1String distanceKm ++ " km"
  else jsToFixed1String (distanceKm / 1000) ++ "k km"

/-- `formatDistance` as defined in src/src/components/SummaryOverlay.tsx
(lines 10-14). -/
def formatDistanceSummaryOverlay (distanceKm : ℚ) : String :=
  if distanceKm < 1 then jsToFixed0String (distanceKm * 1000) ++ " m"
  else if distanceKm < 1000 then jsToFixed1String distanceKm ++ " km"
  else jsToFixed1String (distanceKm / 1000) ++ "k km"

/-- `formatDistance` as defined in the unnamed summary-overlay variant
src/unnamed/part_002 (lines 12-16). -/
def formatDistanceOverlayVariant (distanceKm : ℚ) : String :=
  if distanceKm < 1 then jsToFixed0String (distanceKm * 1000) ++ " m"
  else if distanceKm < 1000 then jsToFixed1String distanceKm ++ " km"
  else jsToFixed1String (distanceKm / 1000) ++ "k km"

end FormatDistance

section Engine

variable {α : Type} [LinearOrderedField α]
variable [DecidableRel ((· < ·) : α → α → Prop)] [DecidableRel ((· ≤ ·) : α → α → Prop)]

/-- The mutable refs of src/src/components/AnimatedPlane.tsx that make up
one playback session, plus two pieces of instrumentation: `frameRequested`
records whether an animation-frame callback is pending
(`animationFrameIdRef`), and `endCount` counts invocations of the
`onAnimationEnd` completion callback. -/
structure EngineState (α : Type) where
  marker : Bool
  frameRequested : Bool
  segIndex : ℕ
  segStart : Option α
  lastPos : Option (LatLng α)
  cumulative : α
  endCount : ℕ
deriving Repr, DecidableEq

/-- The observable outcome of one invocation of `animateStep`: the new
engine state, the distance increment reported through `onDistanceUpdate`
(none when no strictly positive increment was reported), and the segment
progress value computed this frame (none when the frame exited before
computing one). -/
structure FrameOutput (α : Type) where
  state : EngineState α
  increment : Option α
  progress : Option α
deriving Repr, DecidableEq

/-- `animateStep` of src/src/components/AnimatedPlane.tsx, at frame time
`now` (the `performance.now()` value).  `d` stands for Leaflet's
`LatLng.distanceTo`.  Branches in source order: missing marker or fewer
than 2 locations stops the loop; a segment index at or past the last
segment cancels the frame, clears the segment timer and last position and
fires the completion callback; otherwise the frame starts the segment
timer if unset, clamps progress to at most 1, interpolates the position,
reports a strictly positive distance increment, and on progress ≥ 1
advances to the next segment and resets the timer, always requesting the
next frame. -/
def animateStep (d : LatLng α → LatLng α → α) (locs : List (Location α))
    (now : α) (s : EngineState α) : FrameOutput α :=
  if s.marker = false ∨ locs.length < 2 then
    ⟨{ s with frameRequested := false }, none, none⟩
  else if locs.length - 1 ≤ s.segIndex then
    ⟨{ s with
        frameRequested := false
        segStart := none
        lastPos := none
        endCount := s.endCount + 1 }, none, none⟩
  else
    let a := latLngOf (locs.getD s.segIndex default)
    let b := latLngOf (locs.getD (s.segIndex + 1) default)
    let s1 := match s.segStart with
      | none => { s with segStart := some now, lastPos := some a }
      | some _ => s
    let t0 := s1.segStart.getD now
    let progress := min ((now - t0) / 5000) 1
    let pos := interpolateLatLng a b progress
    let incCum : Option α × α := match s1.lastPos with
      | none => (none, s1.cumulative)
      | some lp =>
        let i := d lp pos
        if 0 < i then (some i, s1.cumulative + i) else (none, s1.cumulative)
    let s2 := { s1 with lastPos := some pos, cumulative := incCum.2 }
    let s3 := if 1 ≤ progress then
        { s2 with segIndex := s2.segIndex + 1, segStart := none }
      else s2
    ⟨{ s3 with frameRequested := true }, incCum.1, some progress⟩

/-- The accumulated observations of a playback run: final engine state,
the reported distance increments in order, and the computed progress
values in order. -/
structure RunResult (α : Type) where
  state : EngineState α
  increments : List α
  progresses : List α
deriving Repr, DecidableEq

/-- Drive the engine over a list of frame timestamps.  A frame callback
only runs while one is requested; once the engine stops requesting frames
(`cancelAnimationFrame` / not calling `requestAnimationFrame`) no further
callback ever runs. -/
def runFrames (d : LatLng α → LatLng α → α) (locs : List (Location α)) :
    EngineState α → List α → RunResult α
  | s, [] => ⟨s, [], []⟩
  | s, t :: ts =>
    if s.frameRequested then
      let o := animateStep d locs t s
      let r := runFrames d locs o.state ts
      ⟨r.state, o.increment.toList ++ r.increments, o.progress.toList ++ r.progresses⟩
    else ⟨s, [], []⟩

/-- The engine state set up by the start branch of the `useEffect` of
src/src/components/AnimatedPlane.tsx (marker created at the first
waypoint, segment index 0, timer unset, last position at the first
waypoint, cumulative distance 0, first frame requested). -/
def initEngine (locs : List (Location α)) : EngineState α :=
  { marker := true, frameRequested := true, segIndex := 0, segStart := none,
    lastPos := some (latLngOf (locs.getD 0 default)), cumulative := 0,
    endCount := 0 }

/-- The `cleanup` closure of the `useEffect` of
src/src/components/AnimatedPlane.tsx: cancel any pending frame, remove
the marker, and reset every session ref. -/
def cleanupEngine (s : EngineState α) : EngineState α :=
  { marker := false, frameRequested := false, segIndex := 0, segStart := none,
    lastPos := none, cumulative := 0, endCount := s.endCount }

/-- The `useEffect` body of src/src/components/AnimatedPlane.tsx as a
state transformer: when `startAnimation` holds with at least two
locations it re-creates the session from scratch, otherwise it runs
`cleanup`. -/
def planeEffect (startAnimation : Bool) (locs : List (Location α))
    (prev : EngineState α) : EngineState α :=
  if startAnimation = true ∧ 2 ≤ locs.length then initEngine locs
  else cleanupEngine prev

/-- A frame schedule that samples every segment exactly at its endpoints:
`sched T k` yields, for `k` remaining segments starting at time `T`, the
frame times `T, T+5000` for the first segment and so on, with one final
frame to trigger the completion branch. -/
def sched (T : α) : ℕ → List α
  | 0 => [T]
  | k + 1 => T :: (T + 5000) :: sched (T + 5000) k

end Engine

section MapInteraction

/-- The six map interaction handlers snapshotted by the `useEffect` of
src/src/components/AnimatedPlane.tsx (`originalMapState`); `true` means
the handler is enabled. -/
@[ext]
structure MapModes where
  dragging : Bool
  touchZoom : Bool
  doubleClickZoom : Bool
  scrollWheelZoom : Bool
  boxZoom : Bool
  keyboard : Bool
deriving Repr, DecidableEq

/-- The unconditional `disable()` calls issued when playback starts. -/
def disableUserInteraction (_ : MapModes) : MapModes :=
  ⟨false, false, false, false, false, false⟩

/-- The interaction-restoring tail of the `cleanup` closure: each handler
is re-enabled exactly when the snapshot recorded it as enabled, and left
untouched otherwise. -/
def restoreUserInteraction (snapshot current : MapModes) : MapModes :=
  { dragging := if snapshot.dragging then true else current.dragging
    touchZoom := if snapshot.touchZoom then true else current.touchZoom
    doubleClickZoom := if snapshot.doubleClickZoom then true else current.doubleClickZoom
    scrollWheelZoom := if snapshot.scrollWheelZoom then true else current.scrollWheelZoom
    boxZoom := if snapshot.boxZoom then true else current.boxZoom
    keyboard := if snapshot.keyboard then true else current.keyboard }

end MapInteraction

section Capture

/-- `MediaRecorder.state` values. -/
inductive RecState where
  | inactive
  | recording
  | paused
deriving Repr, DecidableEq

/-- The error classes distinguished by the catch block of
`startRecordingHandler` in src/src/App.tsx: the two `DOMException` names
it tests for, and everything else (including plain `Error` throws such as
the missing-`MediaRecorder` and missing-map checks). -/
inductive CaptureErr where
  | notAllowed
  | notSupported
  | other
deriving Repr, DecidableEq

/-- The user-facing alert messages produced by src/src/App.tsx. -/
inductive Msg where
  | validationAddTwo
  | iosWarningPre
  | iosLimited
  | permissionDenied
  | notSupportedBrowser
  | genericFailure
deriving Repr, DecidableEq

/-- The catch block's message selection (src/src/App.tsx lines 274-297):
the iOS branch takes precedence, then the two `DOMException` names, then
the generic fallback. -/
def classifyError (isIOS : Bool) (e : CaptureErr) : Msg :=
  if isIOS then .iosLimited
  else match e with
    | .notAllowed => .permissionDenied
    | .notSupported => .notSupportedBrowser
    | .other => .genericFailure

/-- The environment a run of `startRecordingHandler` interacts with:
platform detection, the outcome of `getDisplayMedia`, whether the map ref
is still available after the resize pause, whether the `MediaRecorder`
API exists, and the outcomes of recorder construction and
`recorder.start()`. -/
structure CaptureEnv where
  isIOS : Bool
  streamResult : Except CaptureErr Unit
  mapStillAvailable : Bool
  mediaRecorderSupported : Bool
  recorderCtorResult : Except CaptureErr Unit
  recorderStartResult : Except CaptureErr Unit

/-- The first error thrown inside the `try` block of
`startRecordingHandler`, if any, in the source's step order. -/
def failurePoint (env : CaptureEnv) : Option CaptureErr :=
  match env.streamResult with
  | .error e => some e
  | .ok _ =>
    if env.mapStillAvailable = false then some .other
    else if env.mediaRecorderSupported = false then some .other
    else match env.recorderCtorResult with
      | .error e => some e
      | .ok _ =>
        match env.recorderStartResult with
        | .error e => some e
        | .ok _ => none

/-- The top-level React state and refs of src/src/App.tsx that the
waypoint and capture claims are about.  The zoom-control fields follow
Leaflet's actual semantics: `map.zoomControl` is assigned once by the
map's init hook (when the map is created with its default zoom control)
and is never cleared by `Control.remove()` (which only detaches the
control and nulls the control's own map pointer) nor assigned by
`map.addControl`, so after a removal it keeps referencing the detached
control.  `zoomControlRef` models the truthiness of that reference;
`defaultZoomAttached` records whether the init-time control is currently
attached to the map; `addedZoomControls` counts zoom controls attached
later through `addControl` (no code path detaches those).
`acquiredStreams` and `releasedStreams` count display-media streams
obtained and streams whose tracks have all been stopped. -/
structure AppState where
  locations : List (Location ℚ)
  isAnimating : Bool
  traveledDistance : ℚ
  isRecording : Bool
  hideUI : Bool
  showSummaryOverlay : Bool
  recordedVideoUrl : Option Unit
  recorder : Option RecState
  stream : Option Unit
  acquiredStreams : ℕ
  releasedStreams : ℕ
  mapPresent : Bool
  zoomControlRef : Bool
  defaultZoomAttached : Bool
  addedZoomControls : ℕ
  messages : List Msg
deriving Repr, DecidableEq

/-- How many zoom controls are attached to (visible on) the map: the
init-time default control when still attached, plus any added through
`addControl`. -/
def attachedZoomCount (s : AppState) : ℕ :=
  (if s.defaultZoomAttached then 1 else 0) + s.addedZoomControls

/-- `addLocation` of src/src/App.tsx: append, force animation off, reset
traveled distance. -/
def addLocation (loc : Location ℚ) (s : AppState) : AppState :=
  { s with
    locations := s.locations ++ [loc]
    isAnimating := false
    traveledDistance := 0 }

/-- `removeLocation` of src/src/App.tsx: filter out the id, force
animation off, reset traveled distance. -/
def removeLocation (id : String) (s : AppState) : AppState :=
  { s with
    locations := s.locations.filter (fun l => l.id ≠ id)
    isAnimating := false
    traveledDistance := 0 }

/-- `startAnimation` of src/src/App.tsx. -/
def startAnimationHandler (s : AppState) : AppState :=
  if 2 ≤ s.locations.length then
    { s with traveledDistance := 0, isAnimating := true }
  else s

/-- `stopRecordingHandler` of src/src/App.tsx (lines 96-112): stop the
recorder only if it is actively recording, unconditionally clear the
playback, recording, chrome-hidden and summary flags, and run the
restore branch `if (mapRef.current && !mapRef.current.zoomControl)
addControl(...)` — whose guard reads the persistent `map.zoomControl`
reference, not actual attachment. -/
def stopRecordingHandler (s : AppState) : AppState :=
  let s1 := if s.recorder = some .recording then
      { s with recorder := some .inactive }
    else s
  let s2 := { s1 with
    isAnimating := false
    isRecording := false
    hideUI := false
    showSummaryOverlay := false }
  if s2.mapPresent = true ∧ s2.zoomControlRef = false then
    { s2 with addedZoomControls := s2.addedZoomControls + 1 }
  else s2

/-- The catch block of `startRecordingHandler` (src/src/App.tsx lines
261-298): stop any tracks of the current stream, null both handles, run
the zoom-restore branch `if (mapRef.current && !mapRef.current.zoomControl)
addControl(...)` (whose guard reads the persistent `map.zoomControl`
reference, not actual attachment), clear the recording and chrome-hidden
flags, and alert the classified message. -/
def captureCatch (env : CaptureEnv) (e : CaptureErr) (s : AppState) : AppState :=
  let s1 := match s.stream with
    | some _ => { s with stream := none, releasedStreams := s.releasedStreams + 1 }
    | none => s
  let s2 := { s1 with recorder := none }
  let s3 := if s2.mapPresent = true ∧ s2.zoomControlRef = false then
      { s2 with addedZoomControls := s2.addedZoomControls + 1 }
    else s2
  { s3 with
    isRecording := false
    hideUI := false
    messages := s3.messages ++ [classifyError env.isIOS e] }

/-- The iOS pre-warning alert issued before the try block
(src/src/App.tsx lines 165-174). -/
def iosPreWarn (isIOS : Bool) (s : AppState) : AppState :=
  if isIOS then { s with messages := s.messages ++ [.iosWarningPre] } else s

/-- Step 1 of the try block: `getDisplayMedia` succeeded and its stream
was stored in `mediaStreamRef`. -/
def acquireStream (s : AppState) : AppState :=
  { s with stream := some (), acquiredStreams := s.acquiredStreams + 1 }

/-- The zoom-control removal of src/src/App.tsx lines 189-194:
`if (mapRef.current?.zoomControl) mapRef.current.zoomControl.remove()` —
the guard tests the persistent `map.zoomControl` reference, and
`remove()` detaches that referenced init-time control (a no-op when it is
already detached), leaving the reference itself untouched. -/
def removeZoomControl (s : AppState) : AppState :=
  if s.mapPresent = true ∧ s.zoomControlRef = true then
    { s with defaultZoomAttached := false }
  else s

/-- Hiding the control panel before the resize pause (`setHideUI(true)`). -/
def hideChrome (s : AppState) : AppState := { s with hideUI := true }

/-- Clearing the previous artifact (`setRecordedVideoUrl(null)`). -/
def clearArtifact (s : AppState) : AppState := { s with recordedVideoUrl := none }

/-- Recorder construction: `new MediaRecorder(...)` stored in
`mediaRecorderRef`, initially inactive. -/
def constructRecorder (s : AppState) : AppState := { s with recorder := some .inactive }

/-- `mediaRecorderRef.current.start()`. -/
def startRecorder (s : AppState) : AppState := { s with recorder := some .recording }

/-- `setIsRecording(true)`. -/
def setRecordingFlag (s : AppState) : AppState := { s with isRecording := true }

/-- `startRecordingHandler` of src/src/App.tsx (lines 158-299) as a state
transformer over `CaptureEnv`: the precondition alert, the iOS
pre-warning, then the try block in source order — acquire the stream,
remove the zoom control if present, hide the chrome, re-check the map
ref, clear the previous artifact, check for the `MediaRecorder` API,
construct the recorder, start it, set the recording flag, start the
animation — with any failure routed through `captureCatch`. -/
def startRecordingHandler (env : CaptureEnv) (s : AppState) : AppState :=
  if s.locations.length < 2 ∨ s.mapPresent = false then
    { s with messages := s.messages ++ [.validationAddTwo] }
  else
    let s0 := iosPreWarn env.isIOS s
    match env.streamResult with
    | .error e => captureCatch env e s0
    | .ok _ =>
      let s3 := hideChrome (removeZoomControl (acquireStream s0))
      if env.mapStillAvailable = false then captureCatch env .other s3
      else
        let s4 := clearArtifact s3
        if env.mediaRecorderSupported = false then captureCatch env .other s4
        else
          match env.recorderCtorResult with
          | .error e => captureCatch env e s4
          | .ok _ =>
            let s5 := constructRecorder s4
            match env.recorderStartResult with
            | .error e => captureCatch env e s5
            | .ok _ => startAnimationHandler (setRecordingFlag (startRecorder s5))

/-- The Record Video button of src/src/components/ControlPanel.tsx
(lines 278-284): disabled while animating, while recording, or with
fewer than two locations. -/
def recordButtonDisabled (s : AppState) : Bool :=
  s.isAnimating || s.isRecording || decide (s.locations.length < 2)

/-- Clicking the Record Video button: a disabled button ignores the
click, an enabled one invokes `startRecordingHandler`. -/
def clickRecordButton (env : CaptureEnv) (s : AppState) : AppState :=
  if recordButtonDisabled s then s else startRecordingHandler env s

end Capture

section Haversine

/-- ECMAScript `Math.atan2(y, x)` on exact reals (the principal value of
the argument of the point `(x, y)`). -/
noncomputable def atan2 (y x : ℝ) : ℝ :=
  if 0 < x then Real.arctan (y / x)
  else if x = 0 then
    if 0 < y then Real.pi / 2 else if y < 0 then -(Real.pi / 2) else 0
  else
    if 0 ≤ y then Real.arctan (y / x) + Real.pi
    else Real.arctan (y / x) - Real.pi

/-- The great-circle distance used by the source through Leaflet's
`LatLng.distanceTo` (`L.CRS.Earth.distance`): the haversine formula on a
sphere of radius 6371000 metres — the spec's "great-circle distance
(haversine or equivalent)". -/
noncomputable def leafletDistance (p1 p2 : LatLng ℝ) : ℝ :=
  let rad := Real.pi / 180
  let lat1 := p1.lat * rad
  let lat2 := p2.lat * rad
  let sinDLat := Real.sin ((p2.lat - p1.lat) * rad / 2)
  let sinDLon := Real.sin ((p2.lng - p1.lng) * rad / 2)
  let a := sinDLat * sinDLat + Real.cos lat1 * Real.cos lat2 * (sinDLon * sinDLon)
  let c := 2 * atan2 (Real.sqrt a) (Real.sqrt (1 - a))
  6371000 * c

/-- A concrete two-waypoint path: latitude 45° from longitude 0° to
longitude 180°.  Its single segment's linearly interpolated midpoint
(latitude 45°, longitude 90°) lies far off the great circle through its
endpoints. -/
def locsCE : List (Location ℝ) :=
  [⟨"a", "Start", 45, 0, "AA"⟩, ⟨"b", "End", 45, 180, "BB"⟩]

/-- The playback run of `locsCE` with frames at 0 ms, 2500 ms (segment
progress one half), 5000 ms (progress one) and 5001 ms (the completion
frame). -/
noncomputable def runCE : RunResult ℝ :=
  runFrames leafletDistance locsCE (initEngine locsCE) [0, 2500, 5000, 5001]

end Haversine

/-! ### Theorems -/

theorem restore_if_or (b c : Bool) : (if b = true then true else c) = (b || c) := by
  cases b <;> simp

/-- C9: the interpolation function is componentwise linear in latitude
and longitude, and for every pair of points `a`, `b`,
`interpolateLatLng a b 0 = a` and `interpolateLatLng a b 1 = b` (exactly,
in the exact-arithmetic embedding). -/
theorem interpolate_linear_endpoints {α : Type} [CommRing α] :
    ∀ (a b : LatLng α) (t : α),
      interpolateLatLng a b 0 = a ∧
      interpolateLatLng a b 1 = b ∧
      (interpolateLatLng a b t).lat = (1 - t) * a.lat + t * b.lat ∧
      (interpolateLatLng a b t).lng = (1 - t) * a.lng + t * b.lng := by
  intro a b t
  refine ⟨?_, ?_, ?_, ?_⟩
  · ext <;> simp [interpolateLatLng]
  · ext <;> simp [interpolateLatLng]
  · simp only [interpolateLatLng]; ring
  · simp only [interpolateLatLng]; ring

/-- C10: the four locally duplicated `formatDistance` definitions (control
panel, animation tooltip, and both summary-overlay variants) are
extensionally equal, and all realize the metres / one-decimal-km / `k km`
three-way branching. -/
theorem formatDistance_variants_agree :
    ∀ d : ℚ,
      formatDistanceControlPanel d = formatDistanceAnimatedPlane d ∧
      formatDistanceAnimatedPlane d = formatDistanceSummaryOverlay d ∧
      formatDistanceSummaryOverlay d = formatDistanceOverlayVariant d ∧
      formatDistanceControlPanel d =
        (if d < 1 then jsToFixed0String (d * 1000) ++ " m"
         else if d < 1000 then jsToFixed1String d ++ " km"
         else jsToFixed1String (d / 1000) ++ "k km") := by
  intro d
  exact ⟨rfl, rfl, rfl, rfl⟩

/-- C7: disabling the interaction modes at playback start and running the
cleanup restore against the pre-disable snapshot yields exactly the
snapshot back, and each restored mode is the disjunction of the
snapshotted mode with the current one — so a mode disabled beforehand is
never re-enabled by the restore. -/
theorem interaction_snapshot_restore :
    ∀ snapshot current : MapModes,
      restoreUserInteraction snapshot (disableUserInteraction snapshot) = snapshot ∧
      (restoreUserInteraction snapshot current).dragging =
        (snapshot.dragging || current.dragging) ∧
      (restoreUserInteraction snapshot current).touchZoom =
        (snapshot.touchZoom || current.touchZoom) ∧
      (restoreUserInteraction snapshot current).doubleClickZoom =
        (snapshot.doubleClickZoom || current.doubleClickZoom) ∧
      (restoreUserInteraction snapshot current).scrollWheelZoom =
        (snapshot.scrollWheelZoom || current.scrollWheelZoom) ∧
      (restoreUserInteraction snapshot current).boxZoom =
        (snapshot.boxZoom || current.boxZoom) ∧
      (restoreUserInteraction snapshot current).keyboard =
        (snapshot.keyboard || current.keyboard) := by
  intro snapshot current
  refine ⟨?_, ?_, ?_, ?_, ?_, ?_, ?_⟩
  · ext <;> simp only [restoreUserInteraction, disableUserInteraction, restore_if_or,
      Bool.or_false]
  all_goals simp only [restoreUserInteraction, restore_if_or]

/-- C4: adding a waypoint or removing one by id always forces the
animation status to idle and resets the traveled distance to 0, whatever
the prior state, and on the next run of the animation component's effect
(which observes the new, idle status) the cleanup clears every session
field: marker, frame request, segment index, segment timer, last
position and cumulative distance. -/
theorem mutation_forces_idle :
    ∀ (s : AppState) (loc : Location ℚ) (id : String)
      (locs : List (Location ℚ)) (e : EngineState ℚ),
      (addLocation loc s).isAnimating = false ∧
      (addLocation loc s).traveledDistance = 0 ∧
      (removeLocation id s).isAnimating = false ∧
      (removeLocation id s).traveledDistance = 0 ∧
      planeEffect (addLocation loc s).isAnimating locs e = cleanupEngine e ∧
      planeEffect (removeLocation id s).isAnimating locs e = cleanupEngine e ∧
      (cleanupEngine e).marker = false ∧
      (cleanupEngine e).frameRequested = false ∧
      (cleanupEngine e).segIndex = 0 ∧
      (cleanupEngine e).segStart = none ∧
      (cleanupEngine e).lastPos = none ∧
      (cleanupEngine e).cumulative = 0 := by
  intro s loc id locs e
  refine ⟨rfl, rfl, rfl, rfl, ?_, ?_, rfl, rfl, rfl, rfl, rfl, rfl⟩
  · simp [planeEffect, addLocation]
  · simp [planeEffect, removeLocation]

/-- C8: invoking the recording-start operation (the Record Video button)
while a recording session is already active is ignored: the button is
disabled, so the state — in particular the active recorder and stream
handles — is left untouched. -/
theorem concurrent_start_ignored :
    ∀ (env : CaptureEnv) (s : AppState), s.isRecording = true →
      clickRecordButton env s = s ∧
      (clickRecordButton env s).recorder = s.recorder ∧
      (clickRecordButton env s).stream = s.stream := by
  intro env s h
  have hd : recordButtonDisabled s = true := by
    simp [recordButtonDisabled, h]
  have : clickRecordButton env s = s := by
    simp [clickRecordButton, hd]
  exact ⟨this, by rw [this], by rw [this]⟩

/-- Witness for `concurrent_start_ignored` at a concrete recording
state. -/
theorem concurrent_start_ignored_witness :
    clickRecordButton ⟨false, .ok (), true, true, .ok (), .ok ()⟩
        ⟨[], false, 0, true, false, false, none, some .recording, some (),
          1, 0, true, true, true, 0, []⟩ =
      ⟨[], false, 0, true, false, false, none, some .recording, some (),
        1, 0, true, true, true, 0, []⟩ :=
  (concurrent_start_ignored ⟨false, .ok (), true, true, .ok (), .ok ()⟩
    ⟨[], false, 0, true, false, false, none, some .recording, some (),
      1, 0, true, true, true, 0, []⟩ rfl).1

/-- C5 (amended): the capture stop sequence is idempotent on this app's
map — where `map.zoomControl` is the persistent init-time reference, so
the restore guard `!mapRef.current.zoomControl` never fires — a second
(or later) invocation, from any trigger, changes nothing; the recorder
handle is altered exactly when it was actively recording (to the stopped
state); the playback, recording, chrome-hidden and summary flags all end
false; and the stop sequence never attaches any zoom control, so in
particular no duplicate chrome is ever added, while a control removed
during capture setup stays absent. -/
theorem stopRecording_idempotent :
    ∀ s : AppState, (s.mapPresent = true → s.zoomControlRef = true) →
      stopRecordingHandler (stopRecordingHandler s) = stopRecordingHandler s ∧
      ((stopRecordingHandler s).recorder ≠ s.recorder ↔
        s.recorder = some .recording) ∧
      (s.recorder = some .recording →
        (stopRecordingHandler s).recorder = some .inactive) ∧
      (stopRecordingHandler s).isAnimating = false ∧
      (stopRecordingHandler s).isRecording = false ∧
      (stopRecordingHandler s).hideUI = false ∧
      (stopRecordingHandler s).showSummaryOverlay = false ∧
      attachedZoomCount (stopRecordingHandler s) = attachedZoomCount s ∧
      (stopRecordingHandler s).defaultZoomAttached = s.defaultZoomAttached ∧
      (stopRecordingHandler s).addedZoomControls = s.addedZoomControls := by
  intro s href
  by_cases hr : s.recorder = some .recording <;>
    cases hm : s.mapPresent <;>
      cases hzr : s.zoomControlRef <;>
        simp_all [stopRecordingHandler, attachedZoomCount]

/-- Witness for `stopRecording_idempotent` at a concrete mid-recording
state (recorder recording, all flags set, map present, `map.zoomControl`
referencing the control detached during setup). -/
theorem stopRecording_idempotent_witness :
    (stopRecordingHandler (stopRecordingHandler
        ⟨[], true, 0, true, true, true, none, some .recording, some (),
          1, 0, true, true, false, 0, []⟩) =
      stopRecordingHandler
        ⟨[], true, 0, true, true, true, none, some .recording, some (),
          1, 0, true, true, false, 0, []⟩) ∧
    (stopRecordingHandler
        ⟨[], true, 0, true, true, true, none, some .recording, some (),
          1, 0, true, true, false, 0, []⟩).recorder = some .inactive ∧
    attachedZoomCount (stopRecordingHandler
        ⟨[], true, 0, true, true, true, none, some .recording, some (),
          1, 0, true, true, false, 0, []⟩) =
      attachedZoomCount
        ⟨[], true, 0, true, true, true, none, some .recording, some (),
          1, 0, true, true, false, 0, []⟩ :=
  ⟨(stopRecording_idempotent _ (fun _ => rfl)).1,
   (stopRecording_idempotent _ (fun _ => rfl)).2.2.1 rfl,
   (stopRecording_idempotent
      ⟨[], true, 0, true, true, true, none, some .recording, some (),
        1, 0, true, true, false, 0, []⟩
      (fun _ => rfl)).2.2.2.2.2.2.2.1⟩

/-- C5 is false as stated: from the mid-recording state in which the zoom
control was removed during capture setup (map present, no zoom control
attached, `map.zoomControl` still referencing the detached control), the
stop sequence does not restore the zoom control — the map has zero zoom
controls attached both before and after the stop, because the restore
guard `!mapRef.current.zoomControl` reads the persistent reference and is
false. -/
theorem stopRecording_idempotent_counterexample :
    (⟨[], true, 0, true, true, true, none, some .recording, some (),
        1, 0, true, true, false, 0, []⟩ : AppState).mapPresent = true ∧
    attachedZoomCount
      (⟨[], true, 0, true, true, true, none, some .recording, some (),
        1, 0, true, true, false, 0, []⟩ : AppState) = 0 ∧
    attachedZoomCount (stopRecordingHandler
      ⟨[], true, 0, true, true, true, none, some .recording, some (),
        1, 0, true, true, false, 0, []⟩) = 0 := by
  refine ⟨rfl, rfl, ?_⟩
  decide

/-- C6 exhibits a code bug at a concrete failing input: with two
waypoints on a map carrying its default zoom control, stream acquisition
succeeds, the zoom control is removed, and then recorder construction
throws `NotSupportedError`.  The catch block releases the acquired
stream's tracks, clears both handles, resets the recording and
chrome-hidden flags, starts no animation, and surfaces the
browser-unsupported message — but it does NOT restore the removed zoom
control, although its own comment says "Restore zoom control on error":
the guard `!mapRef.current.zoomControl` reads Leaflet's persistent
init-time `map.zoomControl` reference, which still points at the
detached control, so no control is ever re-added and the map ends with
zero zoom controls attached. -/
theorem captureError_zoom_not_restored :
    (⟨[⟨"1", "London", 51, 0, "GB"⟩, ⟨"2", "Paris", 48, 2, "FR"⟩],
        false, 0, false, false, false, none, none, none, 0, 0,
        true, true, true, 0, []⟩ : AppState).defaultZoomAttached = true ∧
    (startRecordingHandler ⟨false, .ok (), true, true, .error .notSupported, .ok ()⟩
        ⟨[⟨"1", "London", 51, 0, "GB"⟩, ⟨"2", "Paris", 48, 2, "FR"⟩],
          false, 0, false, false, false, none, none, none, 0, 0,
          true, true, true, 0, []⟩).acquiredStreams = 1 ∧
    (startRecordingHandler ⟨false, .ok (), true, true, .error .notSupported, .ok ()⟩
        ⟨[⟨"1", "London", 51, 0, "GB"⟩, ⟨"2", "Paris", 48, 2, "FR"⟩],
          false, 0, false, false, false, none, none, none, 0, 0,
          true, true, true, 0, []⟩).releasedStreams = 1 ∧
    (startRecordingHandler ⟨false, .ok (), true, true, .error .notSupported, .ok ()⟩
        ⟨[⟨"1", "London", 51, 0, "GB"⟩, ⟨"2", "Paris", 48, 2, "FR"⟩],
          false, 0, false, false, false, none, none, none, 0, 0,
          true, true, true, 0, []⟩).stream = none ∧
    (startRecordingHandler ⟨false, .ok (), true, true, .error .notSupported, .ok ()⟩
        ⟨[⟨"1", "London", 51, 0, "GB"⟩, ⟨"2", "Paris", 48, 2, "FR"⟩],
          false, 0, false, false, false, none, none, none, 0, 0,
          true, true, true, 0, []⟩).recorder = none ∧
    (startRecordingHandler ⟨false, .ok (), true, true, .error .notSupported, .ok ()⟩
        ⟨[⟨"1", "London", 51, 0, "GB"⟩, ⟨"2", "Paris", 48, 2, "FR"⟩],
          false, 0, false, false, false, none, none, none, 0, 0,
          true, true, true, 0, []⟩).isRecording = false ∧
    (startRecordingHandler ⟨false, .ok (), true, true, .error .notSupported, .ok ()⟩
        ⟨[⟨"1", "London", 51, 0, "GB"⟩, ⟨"2", "Paris", 48, 2, "FR"⟩],
          false, 0, false, false, false, none, none, none, 0, 0,
          true, true, true, 0, []⟩).hideUI = false ∧
    (startRecordingHandler ⟨false, .ok (), true, true, .error .notSupported, .ok ()⟩
        ⟨[⟨"1", "London", 51, 0, "GB"⟩, ⟨"2", "Paris", 48, 2, "FR"⟩],
          false, 0, false, false, false, none, none, none, 0, 0,
          true, true, true, 0, []⟩).isAnimating = false ∧
    (planeEffect (startRecordingHandler
        ⟨false, .ok (), true, true, .error .notSupported, .ok ()⟩
        ⟨[⟨"1", "London", 51, 0, "GB"⟩, ⟨"2", "Paris", 48, 2, "FR"⟩],
          false, 0, false, false, false, none, none, none, 0, 0,
          true, true, true, 0, []⟩).isAnimating ([] : List (Location ℚ))
        ⟨false, false, 0, none, none, 0, 0⟩).marker = false ∧
    (startRecordingHandler ⟨false, .ok (), true, true, .error .notSupported, .ok ()⟩
        ⟨[⟨"1", "London", 51, 0, "GB"⟩, ⟨"2", "Paris", 48, 2, "FR"⟩],
          false, 0, false, false, false, none, none, none, 0, 0,
          true, true, true, 0, []⟩).messages = [Msg.notSupportedBrowser] ∧
    attachedZoomCount (startRecordingHandler
        ⟨false, .ok (), true, true, .error .notSupported, .ok ()⟩
        ⟨[⟨"1", "London", 51, 0, "GB"⟩, ⟨"2", "Paris", 48, 2, "FR"⟩],
          false, 0, false, false, false, none, none, none, 0, 0,
          true, true, true, 0, []⟩) = 0 := by
  decide

section SumLemmas

variable {α : Type} [LinearOrderedField α]

theorem pairSumFrom_snoc (d : LatLng α → LatLng α → α) (locs : List (Location α)) :
    ∀ (k i : ℕ),
      pairSumFrom d locs i (k + 1) =
        pairSumFrom d locs i k +
          d (latLngOf (locs.getD (i + k) default))
            (latLngOf (locs.getD (i + k + 1) default)) := by
  intro k
  induction k with
  | zero => intro i; simp [pairSumFrom]
  | succ k ih =>
    intro i
    have e1 : pairSumFrom d locs i (k + 1 + 1) =
        d (latLngOf (locs.getD i default)) (latLngOf (locs.getD (i + 1) default)) +
          pairSumFrom d locs (i + 1) (k + 1) := rfl
    have e2 : pairSumFrom d locs i (k + 1) =
        d (latLngOf (locs.getD i default)) (latLngOf (locs.getD (i + 1) default)) +
          pairSumFrom d locs (i + 1) k := rfl
    rw [e1, ih (i + 1), e2]
    have h1 : i + 1 + k = i + (k + 1) := by omega
    rw [h1]
    ring

theorem foldl_range_pairSum (d : LatLng α → LatLng α → α) (locs : List (Location α)) :
    ∀ k : ℕ,
      (List.range k).foldl
        (fun acc i =>
          acc + d (latLngOf (locs.getD i default)) (latLngOf (locs.getD (i + 1) default)))
        0 =
      pairSumFrom d locs 0 k := by
  intro k
  induction k with
  | zero => simp [pairSumFrom]
  | succ k ih =>
    rw [List.range_succ, List.foldl_append]
    simp only [List.foldl_cons, List.foldl_nil]
    rw [ih, pairSumFrom_snoc]
    simp

theorem pairSumFrom_shift (d : LatLng α → LatLng α → α) (x : Location α)
    (locs : List (Location α)) :
    ∀ (k i : ℕ), pairSumFrom d (x :: locs) (i + 1) k = pairSumFrom d locs i k := by
  intro k
  induction k with
  | zero => intro i; simp [pairSumFrom]
  | succ k ih =>
    intro i
    simp only [pairSumFrom, List.getD_cons_succ]
    rw [ih (i + 1)]

theorem pairSum_eq_sumConsecutive (d : LatLng α → LatLng α → α) :
    ∀ (a : Location α) (rest : List (Location α)),
      pairSumFrom d (a :: rest) 0 rest.length =
        sumConsecutive d ((a :: rest).map latLngOf) := by
  intro a rest
  induction rest generalizing a with
  | nil => simp [pairSumFrom, sumConsecutive]
  | cons b rs ih =>
    simp only [List.length_cons, pairSumFrom, List.map_cons, sumConsecutive]
    rw [pairSumFrom_shift, ih b]
    simp [List.map_cons]

theorem sumConsecutive_div (d : LatLng α → LatLng α → α) (c : α) :
    ∀ l : List (LatLng α),
      sumConsecutive (fun p q => d p q / c) l = sumConsecutive d l / c := by
  intro l
  induction l with
  | nil => simp [sumConsecutive]
  | cons a tl ih =>
    cases tl with
    | nil => simp [sumConsecutive]
    | cons b rs =>
      simp only [sumConsecutive]
      rw [ih, add_div]

end SumLemmas

/-- C1: the stored total distance is exactly the sum, over each
consecutive pair of waypoints in list order, of their great-circle
distance converted to kilometres — for any distance function `d` standing
for Leaflet's `distanceTo` — and sequences of length 0 or 1 store total
distance 0. -/
theorem totalDistance_spec {α : Type} [LinearOrderedField α] :
    ∀ (d : LatLng α → LatLng α → α) (locs : List (Location α)),
      totalDistanceCalc d locs =
        sumConsecutive (fun p q => d p q / 1000) (locs.map latLngOf) ∧
      (locs.length ≤ 1 → totalDistanceCalc d locs = 0) := by
  intro d locs
  have key : totalDistanceCalc d locs = sumConsecutive d (locs.map latLngOf) / 1000 := by
    rw [totalDistanceCalc]
    by_cases h : 2 ≤ locs.length
    · rw [if_pos h, foldl_range_pairSum]
      cases locs with
      | nil => simp at h
      | cons a rest =>
        have hlen : (a :: rest).length - 1 = rest.length := by simp
        rw [hlen, pairSum_eq_sumConsecutive]
    · rw [if_neg h]
      cases locs with
      | nil => simp [sumConsecutive]
      | cons a rest =>
        cases rest with
        | nil => simp [sumConsecutive]
        | cons b rs =>
          exfalso
          apply h
          simp
  constructor
  · rw [key, sumConsecutive_div d 1000]
  · intro hle
    rw [key]
    cases locs with
    | nil => simp [sumConsecutive]
    | cons a rest =>
      cases rest with
      | nil => simp [sumConsecutive]
      | cons b rs => simp at hle

/-- Witness for `totalDistance_spec` at a concrete one-waypoint list and
a concrete distance function. -/
theorem totalDistance_spec_witness :
    totalDistanceCalc (fun p q => |p.lat - q.lat| + |p.lng - q.lng|)
        ([⟨"x", "X", 3, 4, "XX"⟩] : List (Location ℚ)) = 0 ∧
    totalDistanceCalc (fun p q => |p.lat - q.lat| + |p.lng - q.lng|)
        ([⟨"x", "X", 3, 4, "XX"⟩] : List (Location ℚ)) =
      sumConsecutive (fun p q => (|p.lat - q.lat| + |p.lng - q.lng|) / 1000)
        (([⟨"x", "X", 3, 4, "XX"⟩] : List (Location ℚ)).map latLngOf) :=
  ⟨(totalDistance_spec (fun p q => |p.lat - q.lat| + |p.lng - q.lng|)
      [⟨"x", "X", 3, 4, "XX"⟩]).2 (by decide),
   (totalDistance_spec (fun p q => |p.lat - q.lat| + |p.lng - q.lng|)
      [⟨"x", "X", 3, 4, "XX"⟩]).1⟩


section EngineLemmas

variable {α : Type} [LinearOrderedField α]
variable [DecidableRel ((· < ·) : α → α → Prop)] [DecidableRel ((· ≤ ·) : α → α → Prop)]

theorem animateStep_endCount_cases (d : LatLng α → LatLng α → α)
    (locs : List (Location α)) (now : α) (s : EngineState α) :
    (animateStep d locs now s).state.endCount = s.endCount ∨
    ((animateStep d locs now s).state.endCount = s.endCount + 1 ∧
     (animateStep d locs now s).state.frameRequested = false) := by
  by_cases h1 : s.marker = false ∨ locs.length < 2
  · left; simp [animateStep, h1]
  · by_cases h2 : locs.length - 1 ≤ s.segIndex
    · right; simp [animateStep, h1, h2]
    · left
      cases hss : s.segStart <;> cases hlp : s.lastPos <;>
        simp only [animateStep, hss, hlp, if_neg h1, if_neg h2] <;>
        (repeat' split) <;> simp

theorem animateStep_segStart_cases (d : LatLng α → LatLng α → α)
    (locs : List (Location α)) (now : α) (s : EngineState α) :
    (animateStep d locs now s).state.segStart = none ∨
    (animateStep d locs now s).state.segStart = some now ∨
    (animateStep d locs now s).state.segStart = s.segStart := by
  by_cases h1 : s.marker = false ∨ locs.length < 2
  · right; right; simp [animateStep, h1]
  · by_cases h2 : locs.length - 1 ≤ s.segIndex
    · left; simp [animateStep, h1, h2]
    · cases hss : s.segStart <;> cases hlp : s.lastPos <;>
        simp only [animateStep, hss, hlp, if_neg h1, if_neg h2] <;>
        (repeat' split) <;> simp [hss]

theorem animateStep_progress_bounds (d : LatLng α → LatLng α → α)
    (locs : List (Location α)) (now : α) (s : EngineState α)
    (h : ∀ t0, s.segStart = some t0 → t0 ≤ now) :
    ∀ p ∈ (animateStep d locs now s).progress.toList, 0 ≤ p ∧ p ≤ 1 := by
  by_cases h1 : s.marker = false ∨ locs.length < 2
  · simp [animateStep, h1]
  · by_cases h2 : locs.length - 1 ≤ s.segIndex
    · simp [animateStep, h1, h2]
    · have h5 : (0 : α) ≤ 5000 := by norm_num
      cases hss : s.segStart <;>
        simp only [animateStep, hss, if_neg h1, if_neg h2] <;>
        intro p hp <;>
        simp only [Option.toList_some, List.mem_singleton] at hp <;>
        subst hp <;>
        refine ⟨le_min (div_nonneg (sub_nonneg.mpr ?_) h5) zero_le_one, min_le_right _ _⟩ <;>
        (first | exact h _ hss | simp)

theorem runFrames_cons_req (d : LatLng α → LatLng α → α) (locs : List (Location α))
    (s : EngineState α) (t : α) (ts : List α) (h : s.frameRequested = true) :
    runFrames d locs s (t :: ts) =
      ⟨(runFrames d locs (animateStep d locs t s).state ts).state,
       (animateStep d locs t s).increment.toList ++
         (runFrames d locs (animateStep d locs t s).state ts).increments,
       (animateStep d locs t s).progress.toList ++
         (runFrames d locs (animateStep d locs t s).state ts).progresses⟩ := by
  rw [runFrames, if_pos h]

theorem runFrames_stopped (d : LatLng α → LatLng α → α) (locs : List (Location α))
    (s : EngineState α) (times : List α) (h : s.frameRequested = false) :
    runFrames d locs s times = ⟨s, [], []⟩ := by
  cases times <;> simp [runFrames, h]

theorem runFrames_endCount_le (d : LatLng α → LatLng α → α) (locs : List (Location α)) :
    ∀ (times : List α) (s : EngineState α),
      (runFrames d locs s times).state.endCount ≤ s.endCount + 1 := by
  intro times
  induction times with
  | nil => intro s; simp [runFrames]
  | cons t ts ih =>
    intro s
    by_cases hreq : s.frameRequested = true
    · rw [runFrames_cons_req d locs s t ts hreq]
      rcases animateStep_endCount_cases d locs t s with hc | hc
      · have h3 := ih (animateStep d locs t s).state
        dsimp only
        omega
      · rw [runFrames_stopped d locs _ ts hc.2]
        dsimp only
        omega
    · rw [runFrames, if_neg hreq]
      simp

theorem runFrames_progress_bounds (d : LatLng α → LatLng α → α) (locs : List (Location α)) :
    ∀ (times : List α) (s : EngineState α),
      List.Pairwise (· ≤ ·) times →
      (∀ t0, s.segStart = some t0 → ∀ t ∈ times, t0 ≤ t) →
      ∀ p ∈ (runFrames d locs s times).progresses, 0 ≤ p ∧ p ≤ 1 := by
  intro times
  induction times with
  | nil => intro s _ _ p hp; simp [runFrames] at hp
  | cons t ts ih =>
    intro s hsort hinv p hp
    by_cases hreq : s.frameRequested = true
    · rw [runFrames_cons_req d locs s t ts hreq] at hp
      dsimp only at hp
      rw [List.mem_append] at hp
      rcases hp with hp | hp
      · exact animateStep_progress_bounds d locs t s
          (fun t0 h0 => hinv t0 h0 t (List.mem_cons_self t ts)) p hp
      · refine ih (animateStep d locs t s).state (List.Pairwise.of_cons hsort) ?_ p hp
        intro t0 h0 t' ht'
        rcases animateStep_segStart_cases d locs t s with hc | hc | hc
        · rw [hc] at h0; exact absurd h0 (by simp)
        · rw [hc] at h0
          have : t = t0 := by injection h0
          subst this
          exact (List.pairwise_cons.mp hsort).1 t' ht'
        · rw [hc] at h0
          exact hinv t0 h0 t' (List.mem_cons_of_mem t ht')
    · rw [runFrames, if_neg hreq] at hp
      simp at hp

end EngineLemmas


/-- C3: during any playback session driven by a monotone frame clock,
every per-frame segment progress value the engine computes lies in
[0, 1], and the completion callback fires at most once. -/
theorem progress_bounds_single_completion {α : Type} [LinearOrderedField α]
    [DecidableRel ((· < ·) : α → α → Prop)] [DecidableRel ((· ≤ ·) : α → α → Prop)] :
    ∀ (d : LatLng α → LatLng α → α) (locs : List (Location α)) (times : List α),
      List.Pairwise (· ≤ ·) times →
      (∀ p ∈ (runFrames d locs (initEngine locs) times).progresses, 0 ≤ p ∧ p ≤ 1) ∧
      (runFrames d locs (initEngine locs) times).state.endCount ≤ 1 := by
  intro d locs times hsort
  constructor
  · exact runFrames_progress_bounds d locs times (initEngine locs) hsort
      (by intro t0 h; simp [initEngine] at h)
  · have h := runFrames_endCount_le d locs times (initEngine locs)
    simpa [initEngine] using h

/-- Witness for `progress_bounds_single_completion`: a concrete
two-waypoint playback over the rationals, sampled at four increasing
frame times. -/
theorem progress_bounds_single_completion_witness :
    (∀ p ∈ (runFrames (fun p q : LatLng ℚ => |p.lat - q.lat| + |p.lng - q.lng|)
        [⟨"a", "A", 0, 0, "AA"⟩, ⟨"b", "B", 0, 1, "BB"⟩]
        (initEngine [⟨"a", "A", 0, 0, "AA"⟩, ⟨"b", "B", 0, 1, "BB"⟩])
        [0, 2500, 5000, 6000]).progresses, 0 ≤ p ∧ p ≤ 1) ∧
    (runFrames (fun p q : LatLng ℚ => |p.lat - q.lat| + |p.lng - q.lng|)
        [⟨"a", "A", 0, 0, "AA"⟩, ⟨"b", "B", 0, 1, "BB"⟩]
        (initEngine [⟨"a", "A", 0, 0, "AA"⟩, ⟨"b", "B", 0, 1, "BB"⟩])
        [0, 2500, 5000, 6000]).state.endCount ≤ 1 :=
  progress_bounds_single_completion
    (fun p q : LatLng ℚ => |p.lat - q.lat| + |p.lng - q.lng|)
    [⟨"a", "A", 0, 0, "AA"⟩, ⟨"b", "B", 0, 1, "BB"⟩]
    [0, 2500, 5000, 6000] (by decide)


section SchedRun

variable {α : Type} [LinearOrderedField α]
variable [DecidableRel ((· < ·) : α → α → Prop)] [DecidableRel ((· ≤ ·) : α → α → Prop)]

theorem interpolateLatLng_zero {β : Type} [CommRing β] (a b : LatLng β) :
    interpolateLatLng a b 0 = a := by
  ext <;> simp only [interpolateLatLng] <;> ring

theorem interpolateLatLng_one {β : Type} [CommRing β] (a b : LatLng β) :
    interpolateLatLng a b 1 = b := by
  ext <;> simp only [interpolateLatLng] <;> ring

theorem runFrames_sched (d : LatLng α → LatLng α → α) (locs : List (Location α))
    (hd0 : ∀ x, d x x = 0) (hdnn : ∀ x y, 0 ≤ d x y) :
    ∀ (k i : ℕ) (T c : α) (e : ℕ), 2 ≤ locs.length → i + k + 1 = locs.length →
      (runFrames d locs
          ⟨true, true, i, none, some (latLngOf (locs.getD i default)), c, e⟩
          (sched T k)).increments.sum = pairSumFrom d locs i k ∧
      (runFrames d locs
          ⟨true, true, i, none, some (latLngOf (locs.getD i default)), c, e⟩
          (sched T k)).state.endCount = e + 1 := by
  intro k
  induction k with
  | zero =>
    intro i T c e hlen hik
    have h1 : ¬((true : Bool) = false ∨ locs.length < 2) := by
      simp
      omega
    have h2 : locs.length - 1 ≤ i := by omega
    have hstep : animateStep d locs T
        ⟨true, true, i, none, some (latLngOf (locs.getD i default)), c, e⟩ =
        ⟨⟨true, false, i, none, none, c, e + 1⟩, none, none⟩ := by
      rw [animateStep, if_neg h1, if_pos h2]
    rw [show sched T 0 = [T] from rfl]
    rw [runFrames_cons_req d locs _ T [] rfl, hstep]
    simp [runFrames, pairSumFrom]
  | succ k ih =>
    intro i T c e hlen hik
    have h1 : ¬((true : Bool) = false ∨ locs.length < 2) := by
      simp
      omega
    have h2 : ¬(locs.length - 1 ≤ i) := by omega
    have hprog0 : min ((T - T) / 5000) (1 : α) = 0 := by
      rw [show T - T = (0 : α) from by ring, zero_div]
      exact min_eq_left zero_le_one
    have hprog1 : min ((T + 5000 - T) / 5000) (1 : α) = 1 := by
      rw [show T + 5000 - T = (5000 : α) from by ring,
        div_self (by norm_num : (5000 : α) ≠ 0), min_self]
    have hstep1 : animateStep d locs T
        ⟨true, true, i, none, some (latLngOf (locs.getD i default)), c, e⟩ =
        ⟨⟨true, true, i, some T, some (latLngOf (locs.getD i default)), c, e⟩,
          none, some 0⟩ := by
      rw [animateStep, if_neg h1, if_neg h2]
      simp [hprog0, interpolateLatLng_zero, hd0,
        show ¬((1 : α) ≤ 0) from by norm_num]
    have hstep2 : animateStep d locs (T + 5000)
        ⟨true, true, i, some T, some (latLngOf (locs.getD i default)), c, e⟩ =
        ⟨⟨true, true, i + 1, none,
            some (latLngOf (locs.getD (i + 1) default)),
            if 0 < d (latLngOf (locs.getD i default))
                (latLngOf (locs.getD (i + 1) default)) then
              c + d (latLngOf (locs.getD i default))
                (latLngOf (locs.getD (i + 1) default))
            else c, e⟩,
          if 0 < d (latLngOf (locs.getD i default))
              (latLngOf (locs.getD (i + 1) default)) then
            some (d (latLngOf (locs.getD i default))
              (latLngOf (locs.getD (i + 1) default)))
          else none, some 1⟩ := by
      rw [animateStep, if_neg h1, if_neg h2]
      simp [hprog1, interpolateLatLng_one]
      split <;> simp
    rw [show sched T (k + 1) = T :: (T + 5000) :: sched (T + 5000) k from rfl]
    rw [runFrames_cons_req d locs _ T _ rfl, hstep1]
    dsimp only
    rw [runFrames_cons_req d locs _ (T + 5000) _ rfl, hstep2]
    dsimp only
    by_cases hdab : 0 < d (latLngOf (locs.getD i default))
        (latLngOf (locs.getD (i + 1) default))
    · rw [if_pos hdab, if_pos hdab]
      obtain ⟨ihsum, ihend⟩ := ih (i + 1) (T + 5000)
        (c + d (latLngOf (locs.getD i default)) (latLngOf (locs.getD (i + 1) default)))
        e hlen (by omega)
      constructor
      · simp only [Option.toList_some, Option.toList_none, List.nil_append,
          List.singleton_append, List.sum_cons, ihsum]
        rw [show pairSumFrom d locs i (k + 1) =
          d (latLngOf (locs.getD i default)) (latLngOf (locs.getD (i + 1) default)) +
            pairSumFrom d locs (i + 1) k from rfl]
      · exact ihend
    · rw [if_neg hdab, if_neg hdab]
      have hz : d (latLngOf (locs.getD i default)) (latLngOf (locs.getD (i + 1) default)) = 0 :=
        le_antisymm (not_lt.mp hdab) (hdnn _ _)
      obtain ⟨ihsum, ihend⟩ := ih (i + 1) (T + 5000) c e hlen (by omega)
      constructor
      · simp only [Option.toList_none, List.nil_append, ihsum]
        rw [show pairSumFrom d locs i (k + 1) =
          d (latLngOf (locs.getD i default)) (latLngOf (locs.getD (i + 1) default)) +
            pairSumFrom d locs (i + 1) k from rfl, hz, zero_add]
      · exact ihend

end SchedRun


/-- C2 (amended): over one complete playback that samples every segment
exactly at its endpoints (frames at the segment start and 5000 ms later,
then the completion frame), the sum of the reported per-frame distance
increments equals the total path length — the sum of the segment
distances — exactly, for any nonnegative, reflexive-zero distance
function standing for Leaflet's `distanceTo`; and the completion callback
fires exactly once.  (For other frame schedules the reported sum is the
chain of distances between consecutive sampled positions, which for the
haversine distance can exceed the total path length by far more than any
floating-point tolerance; see the counterexample.) -/
theorem playback_increment_sum {α : Type} [LinearOrderedField α]
    [DecidableRel ((· < ·) : α → α → Prop)] [DecidableRel ((· ≤ ·) : α → α → Prop)] :
    ∀ (d : LatLng α → LatLng α → α) (locs : List (Location α)) (T : α),
      (∀ x, d x x = 0) → (∀ x y, 0 ≤ d x y) → 2 ≤ locs.length →
      (runFrames d locs (initEngine locs) (sched T (locs.length - 1))).increments.sum
          = sumConsecutive d (locs.map latLngOf) ∧
      (runFrames d locs (initEngine locs) (sched T (locs.length - 1))).state.endCount = 1 := by
  intro d locs T hd0 hdnn hlen
  have hinit : initEngine locs =
      (⟨true, true, 0, none, some (latLngOf (locs.getD 0 default)), 0, 0⟩ :
        EngineState α) := rfl
  have h := runFrames_sched d locs hd0 hdnn (locs.length - 1) 0 T 0 0 hlen (by omega)
  rw [hinit]
  refine ⟨?_, h.2⟩
  rw [h.1]
  cases locs with
  | nil => simp at hlen
  | cons a rest =>
    have hlr : (a :: rest).length - 1 = rest.length := by simp
    rw [hlr, pairSum_eq_sumConsecutive]

/-- Witness for `playback_increment_sum`: a concrete three-waypoint
playback over the rationals with the taxicab distance. -/
theorem playback_increment_sum_witness :
    (runFrames (fun p q : LatLng ℚ => |p.lat - q.lat| + |p.lng - q.lng|)
        [⟨"a", "A", 0, 0, "AA"⟩, ⟨"b", "B", 0, 1, "BB"⟩, ⟨"c", "C", 2, 1, "CC"⟩]
        (initEngine [⟨"a", "A", 0, 0, "AA"⟩, ⟨"b", "B", 0, 1, "BB"⟩, ⟨"c", "C", 2, 1, "CC"⟩])
        (sched 0 (([⟨"a", "A", 0, 0, "AA"⟩, ⟨"b", "B", 0, 1, "BB"⟩,
          ⟨"c", "C", 2, 1, "CC"⟩] : List (Location ℚ)).length - 1))).increments.sum
      = sumConsecutive (fun p q : LatLng ℚ => |p.lat - q.lat| + |p.lng - q.lng|)
          (([⟨"a", "A", 0, 0, "AA"⟩, ⟨"b", "B", 0, 1, "BB"⟩,
            ⟨"c", "C", 2, 1, "CC"⟩] : List (Location ℚ)).map latLngOf) ∧
    (runFrames (fun p q : LatLng ℚ => |p.lat - q.lat| + |p.lng - q.lng|)
        [⟨"a", "A", 0, 0, "AA"⟩, ⟨"b", "B", 0, 1, "BB"⟩, ⟨"c", "C", 2, 1, "CC"⟩]
        (initEngine [⟨"a", "A", 0, 0, "AA"⟩, ⟨"b", "B", 0, 1, "BB"⟩, ⟨"c", "C", 2, 1, "CC"⟩])
        (sched 0 (([⟨"a", "A", 0, 0, "AA"⟩, ⟨"b", "B", 0, 1, "BB"⟩,
          ⟨"c", "C", 2, 1, "CC"⟩] : List (Location ℚ)).length - 1))).state.endCount = 1 :=
  playback_increment_sum (fun p q : LatLng ℚ => |p.lat - q.lat| + |p.lng - q.lng|)
    [⟨"a", "A", 0, 0, "AA"⟩, ⟨"b", "B", 0, 1, "BB"⟩, ⟨"c", "C", 2, 1, "CC"⟩] 0
    (fun x => by simp)
    (fun x y => by positivity)
    (by decide)


theorem atan2_of_pos (y x : ℝ) (hx : 0 < x) : atan2 y x = Real.arctan (y / x) := by
  rw [atan2, if_pos hx]

theorem sqrt_quarter : Real.sqrt (1 / 4) = 1 / 2 := by
  rw [show (1 / 4 : ℝ) = (1 / 2) ^ 2 by norm_num,
    Real.sqrt_sq (by norm_num : (0 : ℝ) ≤ 1 / 2)]

theorem sqrt_three_quarters : Real.sqrt (3 / 4) = Real.sqrt 3 / 2 := by
  rw [Real.sqrt_div (by norm_num : (0 : ℝ) ≤ 3) 4,
    show (4 : ℝ) = 2 ^ 2 by norm_num,
    Real.sqrt_sq (by norm_num : (0 : ℝ) ≤ 2)]

theorem arctan_inv_sqrt_three : Real.arctan (1 / Real.sqrt 3) = Real.pi / 6 := by
  have h3 : Real.sqrt 3 ≠ 0 := ne_of_gt (Real.sqrt_pos.mpr (by norm_num))
  have htan : Real.tan (Real.pi / 6) = 1 / Real.sqrt 3 := by
    rw [Real.tan_eq_sin_div_cos, Real.sin_pi_div_six, Real.cos_pi_div_six]
    field_simp
  rw [← htan, Real.arctan_tan (by linarith [Real.pi_pos]) (by linarith [Real.pi_pos])]

theorem atan2_half_case : atan2 (1 / 2) (Real.sqrt 3 / 2) = Real.pi / 6 := by
  have hx : (0 : ℝ) < Real.sqrt 3 / 2 := by
    have := Real.sqrt_pos.mpr (show (0 : ℝ) < 3 by norm_num)
    linarith
  rw [atan2_of_pos _ _ hx]
  have h3 : Real.sqrt 3 ≠ 0 := ne_of_gt (Real.sqrt_pos.mpr (by norm_num))
  have harg : (1 / 2 : ℝ) / (Real.sqrt 3 / 2) = 1 / Real.sqrt 3 := by
    field_simp
  rw [harg, arctan_inv_sqrt_three]

theorem dist_AA : leafletDistance ⟨45, 0⟩ ⟨45, 0⟩ = 0 := by
  rw [leafletDistance]
  have e1 : ((45 : ℝ) - 45) * (Real.pi / 180) / 2 = 0 := by ring
  have e2 : ((0 : ℝ) - 0) * (Real.pi / 180) / 2 = 0 := by ring
  simp only [e1, e2, Real.sin_zero]
  norm_num [Real.sqrt_zero, Real.sqrt_one, atan2_of_pos, Real.arctan_zero]

theorem dist_AM : leafletDistance ⟨45, 0⟩ ⟨45, 90⟩ = 6371000 * (Real.pi / 3) := by
  rw [leafletDistance]
  have e1 : ((45 : ℝ) - 45) * (Real.pi / 180) / 2 = 0 := by ring
  have e2 : ((90 : ℝ) - 0) * (Real.pi / 180) / 2 = Real.pi / 4 := by ring
  have e3 : (45 : ℝ) * (Real.pi / 180) = Real.pi / 4 := by ring
  simp only [e1, e2, e3, Real.sin_zero, Real.sin_pi_div_four, Real.cos_pi_div_four]
  have h2 : Real.sqrt 2 ^ 2 = 2 := Real.sq_sqrt (by norm_num)
  have ha : (0 : ℝ) * 0 + Real.sqrt 2 / 2 * (Real.sqrt 2 / 2) *
      (Real.sqrt 2 / 2 * (Real.sqrt 2 / 2)) = 1 / 4 := by
    linear_combination (Real.sqrt 2 ^ 2 + 2) / 16 * h2
  rw [ha, show (1 : ℝ) - 1 / 4 = 3 / 4 by norm_num, sqrt_quarter,
    sqrt_three_quarters, atan2_half_case]
  ring

theorem dist_MB : leafletDistance ⟨45, 90⟩ ⟨45, 180⟩ = 6371000 * (Real.pi / 3) := by
  rw [leafletDistance]
  have e1 : ((45 : ℝ) - 45) * (Real.pi / 180) / 2 = 0 := by ring
  have e2 : ((180 : ℝ) - 90) * (Real.pi / 180) / 2 = Real.pi / 4 := by ring
  have e3 : (45 : ℝ) * (Real.pi / 180) = Real.pi / 4 := by ring
  simp only [e1, e2, e3, Real.sin_zero, Real.sin_pi_div_four, Real.cos_pi_div_four]
  have h2 : Real.sqrt 2 ^ 2 = 2 := Real.sq_sqrt (by norm_num)
  have ha : (0 : ℝ) * 0 + Real.sqrt 2 / 2 * (Real.sqrt 2 / 2) *
      (Real.sqrt 2 / 2 * (Real.sqrt 2 / 2)) = 1 / 4 := by
    linear_combination (Real.sqrt 2 ^ 2 + 2) / 16 * h2
  rw [ha, show (1 : ℝ) - 1 / 4 = 3 / 4 by norm_num, sqrt_quarter,
    sqrt_three_quarters, atan2_half_case]
  ring

theorem dist_AB : leafletDistance ⟨45, 0⟩ ⟨45, 180⟩ = 6371000 * (Real.pi / 2) := by
  rw [leafletDistance]
  have e1 : ((45 : ℝ) - 45) * (Real.pi / 180) / 2 = 0 := by ring
  have e2 : ((180 : ℝ) - 0) * (Real.pi / 180) / 2 = Real.pi / 2 := by ring
  have e3 : (45 : ℝ) * (Real.pi / 180) = Real.pi / 4 := by ring
  simp only [e1, e2, e3, Real.sin_zero, Real.sin_pi_div_two, Real.cos_pi_div_four]
  have h2 : Real.sqrt 2 ^ 2 = 2 := Real.sq_sqrt (by norm_num)
  have ha : (0 : ℝ) * 0 + Real.sqrt 2 / 2 * (Real.sqrt 2 / 2) * ((1 : ℝ) * 1) = 1 / 2 := by
    linear_combination (1 / 4 : ℝ) * h2
  rw [ha, show (1 : ℝ) - 1 / 2 = 1 / 2 by norm_num]
  have hx : (0 : ℝ) < Real.sqrt (1 / 2) := Real.sqrt_pos.mpr (by norm_num)
  rw [atan2_of_pos _ _ hx, div_self (ne_of_gt hx), Real.arctan_one]
  ring


theorem ceStep1 : animateStep leafletDistance locsCE 0
    ⟨true, true, 0, none, some ⟨45, 0⟩, 0, 0⟩ =
    ⟨⟨true, true, 0, some 0, some ⟨45, 0⟩, 0, 0⟩, none, some 0⟩ := by
  have h1 : ¬((true : Bool) = false ∨ locsCE.length < 2) := by simp [locsCE]
  have h2 : ¬(locsCE.length - 1 ≤ 0) := by simp [locsCE]
  rw [animateStep, if_neg h1, if_neg h2]
  have hprog : min (((0 : ℝ) - 0) / 5000) 1 = 0 := by norm_num
  simp [locsCE, latLngOf, hprog, interpolateLatLng_zero, dist_AA,
    show ¬((1 : ℝ) ≤ 0) from by norm_num]

theorem ceStep2 : animateStep leafletDistance locsCE 2500
    ⟨true, true, 0, some 0, some ⟨45, 0⟩, 0, 0⟩ =
    ⟨⟨true, true, 0, some 0, some ⟨45, 90⟩, 6371000 * (Real.pi / 3), 0⟩,
      some (6371000 * (Real.pi / 3)), some (1 / 2)⟩ := by
  have h1 : ¬((true : Bool) = false ∨ locsCE.length < 2) := by simp [locsCE]
  have h2 : ¬(locsCE.length - 1 ≤ 0) := by simp [locsCE]
  rw [animateStep, if_neg h1, if_neg h2]
  have hmid : interpolateLatLng (⟨45, 0⟩ : LatLng ℝ) ⟨45, 180⟩ ((2 : ℝ)⁻¹) = ⟨45, 90⟩ := by
    ext <;> simp [interpolateLatLng] <;> norm_num
  have hpos : (0 : ℝ) < 6371000 * (Real.pi / 3) := by positivity
  simp [locsCE, latLngOf, hmid, dist_AM, hpos,
    show (2500 : ℝ) / 5000 = 2⁻¹ from by norm_num,
    show min ((2 : ℝ)⁻¹) 1 = 2⁻¹ from min_eq_left (by norm_num),
    show ¬((1 : ℝ) ≤ 2⁻¹) from by norm_num]

theorem ceStep3 : animateStep leafletDistance locsCE 5000
    ⟨true, true, 0, some 0, some ⟨45, 90⟩, 6371000 * (Real.pi / 3), 0⟩ =
    ⟨⟨true, true, 1, none, some ⟨45, 180⟩,
        6371000 * (Real.pi / 3) + 6371000 * (Real.pi / 3), 0⟩,
      some (6371000 * (Real.pi / 3)), some 1⟩ := by
  have h1 : ¬((true : Bool) = false ∨ locsCE.length < 2) := by simp [locsCE]
  have h2 : ¬(locsCE.length - 1 ≤ 0) := by simp [locsCE]
  rw [animateStep, if_neg h1, if_neg h2]
  have hpos : (0 : ℝ) < 6371000 * (Real.pi / 3) := by positivity
  simp [locsCE, latLngOf, interpolateLatLng_one, dist_MB, hpos,
    show (5000 : ℝ) / 5000 = 1 from by norm_num]

theorem ceStep4 : animateStep leafletDistance locsCE 5001
    ⟨true, true, 1, none, some ⟨45, 180⟩,
      6371000 * (Real.pi / 3) + 6371000 * (Real.pi / 3), 0⟩ =
    ⟨⟨true, false, 1, none, none,
        6371000 * (Real.pi / 3) + 6371000 * (Real.pi / 3), 1⟩, none, none⟩ := by
  have h1 : ¬((true : Bool) = false ∨ locsCE.length < 2) := by simp [locsCE]
  have h2 : locsCE.length - 1 ≤ 1 := by simp [locsCE]
  rw [animateStep, if_neg h1, if_pos h2]

/-- C2 is false as stated: for the two-waypoint path `locsCE` (latitude
45°, longitude 0° to 180°) played back to completion with a frame at the
segment midpoint, the sum of the reported per-frame increments exceeds
the path's total great-circle length by 6371000·π/6 metres — more than a
thousand kilometres, far beyond any floating-point tolerance.  The
midpoint of the linearly interpolated track lies off the great circle,
and the haversine chain through it is strictly longer. -/
theorem playback_increment_sum_counterexample :
    runCE.state.endCount = 1 ∧
    runCE.increments.sum =
      sumConsecutive leafletDistance (locsCE.map latLngOf) +
        6371000 * (Real.pi / 6) ∧
    1000000 < 6371000 * (Real.pi / 6) := by
  have hinit : initEngine locsCE =
      (⟨true, true, 0, none, some ⟨45, 0⟩, 0, 0⟩ : EngineState ℝ) := rfl
  have hrun : runCE =
      ⟨⟨true, false, 1, none, none,
          6371000 * (Real.pi / 3) + 6371000 * (Real.pi / 3), 1⟩,
        [6371000 * (Real.pi / 3), 6371000 * (Real.pi / 3)], [0, 1 / 2, 1]⟩ := by
    rw [runCE, hinit]
    rw [runFrames_cons_req _ _ _ _ _ rfl, ceStep1]
    dsimp only
    rw [runFrames_cons_req _ _ _ _ _ rfl, ceStep2]
    dsimp only
    rw [runFrames_cons_req _ _ _ _ _ rfl, ceStep3]
    dsimp only
    rw [runFrames_cons_req _ _ _ _ _ rfl, ceStep4]
    dsimp only
    rw [show runFrames leafletDistance locsCE
        ⟨true, false, 1, none, none,
          6371000 * (Real.pi / 3) + 6371000 * (Real.pi / 3), 1⟩ [] =
        ⟨⟨true, false, 1, none, none,
          6371000 * (Real.pi / 3) + 6371000 * (Real.pi / 3), 1⟩, [], []⟩ from rfl]
    rfl
  refine ⟨by rw [hrun], ?_, ?_⟩
  · rw [hrun]
    have hsum : sumConsecutive leafletDistance (locsCE.map latLngOf) =
        leafletDistance ⟨45, 0⟩ ⟨45, 180⟩ := by
      simp [locsCE, latLngOf, sumConsecutive]
    rw [hsum, dist_AB]
    simp only [List.sum_cons, List.sum_nil]
    ring
  · nlinarith [Real.pi_gt_three]

end MapMyFlight
